import Mathlib

/-!
Shallow embedding of `src/Transformer/model.py` (a PyTorch encoder-decoder
Transformer) and proofs about it.

Tensors are modelled as `Fin`-indexed real-valued functions: a batch element of
shape `(seq, d)` is `Fin seq → Fin d → ℝ`.  The batch dimension is dropped:
every operation in the source acts on each batch element independently.
`nn.Dropout` is an elementwise map; it is modelled as a function `ℝ → ℝ`
carried by the module (at inference it is the identity).  Fallible Python code
(assertions, exceptions raised by the interpreter) is modelled with
`Except String`.
-/

namespace Model

noncomputable section

/-- An `nn.Linear(din, dout)` layer: `apply` computes `x ↦ W x + b`. -/
structure Linear (din dout : ℕ) where
  weight : Fin dout → Fin din → ℝ
  bias : Fin dout → ℝ

/-- `nn.Linear` forward on one row: output `j` is `(∑ i, W j i * x i) + b j`. -/
def Linear.apply {din dout : ℕ} (L : Linear din dout) (x : Fin din → ℝ) :
    Fin dout → ℝ :=
  fun j => (∑ i, L.weight j i * x i) + L.bias j

/-- `torch.softmax` over the last axis: `v k ↦ exp (v k) / ∑ j, exp (v j)`. -/
def softmax {n : ℕ} (v : Fin n → ℝ) : Fin n → ℝ :=
  fun k => Real.exp (v k) / ∑ j, Real.exp (v j)

/-- Mean over the feature (last) axis, from `x.mean(dim=-1)`. -/
def rowMean {d : ℕ} (x : Fin d → ℝ) : ℝ := (∑ i, x i) / d

/-- Sample standard deviation over the feature axis, from `x.std(dim=-1)`
(`torch.std` defaults to the unbiased estimator, dividing by `d - 1`). -/
def rowStd {d : ℕ} (x : Fin d → ℝ) : ℝ :=
  Real.sqrt ((∑ i, (x i - rowMean x) ^ 2) / ((d : ℝ) - 1))

/-- `LayerNormalization`: `eps`, a learned scale `alpha` (one per feature) and
a learned shift `beta` (one per feature). -/
structure LayerNormalization (d_model : ℕ) where
  eps : ℝ
  alpha : Fin d_model → ℝ
  beta : Fin d_model → ℝ

/-- `LayerNormalization.__init__(d_model, eps=1e-6)` with the default `eps`:
`alpha = torch.ones(d_model)`, `beta = torch.zeros(d_model)`. -/
def LayerNormalization.init (d_model : ℕ) : LayerNormalization d_model :=
  ⟨1 / 1000000, fun _ => 1, fun _ => 0⟩

/-- `LayerNormalization.forward` on one token row:
`alpha * (x - mean) / (std + eps) + beta`. -/
def LayerNormalization.forwardRow {d : ℕ} (ln : LayerNormalization d)
    (x : Fin d → ℝ) : Fin d → ℝ :=
  fun i => ln.alpha i * (x i - rowMean x) / (rowStd x + ln.eps) + ln.beta i

/-- `LayerNormalization.forward` on a `(seq, d)` tensor: the mean and std are
taken with `dim=-1, keepdim=True`, so each token row is normalized
independently. -/
def LayerNormalization.forwardM {n d : ℕ} (ln : LayerNormalization d)
    (x : Fin n → Fin d → ℝ) : Fin n → Fin d → ℝ :=
  fun t => ln.forwardRow (x t)

/-- `ResidualConnection`: a `LayerNormalization(d_model)` plus an elementwise
dropout map. -/
structure ResidualConnection (d_model : ℕ) where
  norm : LayerNormalization d_model
  drop : ℝ → ℝ

/-- `ResidualConnection.forward(x, sublayer) = x + dropout(sublayer(norm(x)))`. -/
def ResidualConnection.forward {n d : ℕ} (rc : ResidualConnection d)
    (x : Fin n → Fin d → ℝ)
    (sublayer : (Fin n → Fin d → ℝ) → (Fin n → Fin d → ℝ)) :
    Fin n → Fin d → ℝ :=
  fun t i => x t i + rc.drop (sublayer (rc.norm.forwardM x) t i)

/-- C7: layer normalization returns `alpha * (x - mean) / (std + eps) + beta`
with the mean and standard deviation computed over the feature axis of each
token independently; the default `eps = 1e-6` is positive, and the trainable
`alpha` and `beta` are initialized to ones and zeros respectively. -/
theorem layer_normalization_contract :
    ∀ (d n : ℕ) (ln : LayerNormalization d) (x : Fin n → Fin d → ℝ)
      (t : Fin n) (i : Fin d),
      ln.forwardM x t i
          = ln.alpha i * (x t i - rowMean (x t)) / (rowStd (x t) + ln.eps)
            + ln.beta i
        ∧ (LayerNormalization.init d).alpha i = 1
        ∧ (LayerNormalization.init d).beta i = 0
        ∧ 0 < (LayerNormalization.init d).eps := by
  intro d n ln x t i
  refine ⟨rfl, rfl, rfl, ?_⟩
  show (0 : ℝ) < 1 / 1000000
  norm_num

/-- C8: the residual wrap returns `x + dropout(sublayer(norm(x)))` — the
normalization is applied before the sublayer (pre-norm) — and with dropout
disabled and the identity sublayer it returns `x + norm(x)`. -/
theorem residual_connection_pre_norm :
    ∀ (d n : ℕ) (rc : ResidualConnection d) (x : Fin n → Fin d → ℝ)
      (sublayer : (Fin n → Fin d → ℝ) → (Fin n → Fin d → ℝ)),
      rc.forward x sublayer
          = (fun t i => x t i + rc.drop (sublayer (rc.norm.forwardM x) t i))
        ∧ (rc.drop = (fun r => r) →
            rc.forward x (fun y => y)
              = fun t i => x t i + rc.norm.forwardM x t i) := by
  intro d n rc x sublayer
  refine ⟨rfl, ?_⟩
  intro hdrop
  funext t i
  simp only [ResidualConnection.forward, hdrop]

/-- A concrete residual connection with dropout disabled, used to witness
`residual_connection_pre_norm`. -/
def rcIdentity : ResidualConnection 1 :=
  ⟨LayerNormalization.init 1, fun r => r⟩

theorem residual_connection_pre_norm_witness :
    rcIdentity.forward (fun (_ : Fin 1) (_ : Fin 1) => (2 : ℝ)) (fun y => y)
      = fun t i => (fun (_ : Fin 1) (_ : Fin 1) => (2 : ℝ)) t i
          + rcIdentity.norm.forwardM (fun _ _ => (2 : ℝ)) t i :=
  (residual_connection_pre_norm 1 1 rcIdentity (fun _ _ => (2 : ℝ))
    (fun y => y)).2 rfl

/-! ### Construction-time behavior (`__init__` methods and `build_transformer`)

Python constructors can raise; they are modelled as `Except String`
computations over hyperparameter records.  Weight initialization draws random
values, which play no role in any construction-time claim, so the records hold
only the stored hyperparameters. -/

/-- The hyperparameters `MultiHeadAttention.__init__` stores: `d_model`, the
head count `h`, and the per-head width `d_k`. -/
structure MHAConfig where
  d_model : ℕ
  h : ℕ
  d_k : ℕ

/-- `MultiHeadAttention.__init__(d_model, h, dropout)`: evaluating
`d_model % h` with `h = 0` raises `ZeroDivisionError`; otherwise
`assert d_model % h == 0` raises `AssertionError` when the width is not
divisible by the head count, and on success `d_k = d_model // h`. -/
def multiHeadAttentionInit (d_model h : ℕ) : Except String MHAConfig :=
  if h = 0 then Except.error "ZeroDivisionError: integer modulo by zero"
  else if d_model % h = 0 then Except.ok ⟨d_model, h, d_model / h⟩
  else Except.error "AssertionError: d_model is not divisible by h"

/-- The hyperparameters `FeedForward.__init__` stores. -/
structure FeedForwardConfig where
  d_model : ℕ
  d_ff : ℕ

/-- `EncoderLayer.__init__(d_model, h, d_ff, dropout)`: constructs a
`MultiHeadAttention` (whose assertion can fail), a `FeedForward` and two
`ResidualConnection(d_model, dropout)` (both fine). -/
structure EncoderLayerConfig where
  mha : MHAConfig
  ff : FeedForwardConfig

def encoderLayerInit (d_model h d_ff : ℕ) : Except String EncoderLayerConfig :=
  match multiHeadAttentionInit d_model h with
  | Except.error e => Except.error e
  | Except.ok a => Except.ok ⟨a, ⟨d_model, d_ff⟩⟩

/-- `DecoderLayer.__init__` would store its three sublayer blocks. -/
structure DecoderLayerConfig where
  self_attn : MHAConfig
  cross_attn : MHAConfig
  ff : FeedForwardConfig

/-- `DecoderLayer.__init__` (source line 162) evaluates
`ResidualConnection(d_model, dropout)`, but `d_model` is not among its
parameters and is not a global, so the name lookup raises `NameError` before
anything is returned. -/
def decoderLayerInit (_sa _ca : MHAConfig) (_ff : FeedForwardConfig) :
    Except String DecoderLayerConfig :=
  Except.error "NameError: name d_model is not defined"

/-- `Encoder.__init__` (source line 148) calls `LayerNormalization()` with no
argument, but `LayerNormalization.__init__` requires `d_model`: `TypeError`. -/
def encoderInit (_layers : List EncoderLayerConfig) : Except String Unit :=
  Except.error
    "TypeError: LayerNormalization.__init__ missing required argument d_model"

/-- `Decoder.__init__` (source line 175) has the same missing-argument call
`LayerNormalization()`. -/
def decoderInit (_layers : List DecoderLayerConfig) : Except String Unit :=
  Except.error
    "TypeError: LayerNormalization.__init__ missing required argument d_model"

/-- One iteration of the first `build_transformer` loop constructs an (unused)
`MultiHeadAttention`, an (unused) `FeedForward`, and appends
`EncoderLayer(d_model, h, d_ff, dropout)`. -/
def encoderBlocks (d_model h d_ff : ℕ) : ℕ → Except String (List EncoderLayerConfig)
  | 0 => Except.ok []
  | n + 1 =>
    match multiHeadAttentionInit d_model h with
    | Except.error e => Except.error e
    | Except.ok _ =>
      match encoderLayerInit d_model h d_ff with
      | Except.error e => Except.error e
      | Except.ok l =>
        match encoderBlocks d_model h d_ff n with
        | Except.error e => Except.error e
        | Except.ok rest => Except.ok (l :: rest)

/-- One iteration of the second `build_transformer` loop constructs two
`MultiHeadAttention` blocks, a `FeedForward`, and appends a `DecoderLayer`. -/
def decoderBlocks (d_model h d_ff : ℕ) : ℕ → Except String (List DecoderLayerConfig)
  | 0 => Except.ok []
  | n + 1 =>
    match multiHeadAttentionInit d_model h with
    | Except.error e => Except.error e
    | Except.ok sa =>
      match multiHeadAttentionInit d_model h with
      | Except.error e => Except.error e
      | Except.ok ca =>
        match decoderLayerInit sa ca ⟨d_model, d_ff⟩ with
        | Except.error e => Except.error e
        | Except.ok l =>
          match decoderBlocks d_model h d_ff n with
          | Except.error e => Except.error e
          | Except.ok rest => Except.ok (l :: rest)

/-- The value `build_transformer` would return on success (never reached). -/
structure TransformerConfig where
  d_model : ℕ
  N : ℕ

/-- `build_transformer` from the source: embeddings and positional encodings
construct without error; then the encoder-layer loop, the decoder-layer loop,
`Encoder(...)`, `Decoder(...)`, the projection layer and the `Transformer`
wrapper, in source order, each exception propagating to the caller. -/
def build_transformer (_src_vocab_size _tgt_vocab_size d_model h d_ff N : ℕ)
    (_dropout : ℝ) (_src_seq_len _tgt_seq_len : ℕ) :
    Except String TransformerConfig :=
  match encoderBlocks d_model h d_ff N with
  | Except.error e => Except.error e
  | Except.ok encLayers =>
    match decoderBlocks d_model h d_ff N with
    | Except.error e => Except.error e
    | Except.ok decLayers =>
      match encoderInit encLayers with
      | Except.error e => Except.error e
      | Except.ok _ =>
        match decoderInit decLayers with
        | Except.error e => Except.error e
        | Except.ok _ => Except.ok ⟨d_model, N⟩

/-- C9: `MultiHeadAttention` construction fails exactly when `d_model % h ≠ 0`,
and on success stores `d_k = d_model / h`. -/
theorem mha_init_divisibility :
    ∀ (d_model h : ℕ), 0 < h →
      ((∃ e, multiHeadAttentionInit d_model h = Except.error e)
          ↔ d_model % h ≠ 0)
        ∧ (d_model % h = 0 →
            multiHeadAttentionInit d_model h
              = Except.ok ⟨d_model, h, d_model / h⟩) := by
  intro d_model h hh
  have hne : h ≠ 0 := Nat.pos_iff_ne_zero.mp hh
  by_cases hd : d_model % h = 0 <;>
    simp [multiHeadAttentionInit, hne, hd]

theorem mha_init_divisibility_witness :
    ((∃ e, multiHeadAttentionInit 5 2 = Except.error e) ↔ 5 % 2 ≠ 0)
      ∧ multiHeadAttentionInit 8 2 = Except.ok ⟨8, 2, 8 / 2⟩ :=
  ⟨(mha_init_divisibility 5 2 (by decide)).1,
    (mha_init_divisibility 8 2 (by decide)).2 (by decide)⟩

/-- If the attention assertion passes, the encoder-layer loop succeeds. -/
theorem encoderBlocks_ok (d_model h d_ff : ℕ) (cfg : MHAConfig)
    (hi : multiHeadAttentionInit d_model h = Except.ok cfg) :
    ∀ n, ∃ ls, encoderBlocks d_model h d_ff n = Except.ok ls := by
  intro n
  induction n with
  | zero => exact ⟨[], rfl⟩
  | succ m ih =>
    obtain ⟨ls, hls⟩ := ih
    exact ⟨⟨cfg, ⟨d_model, d_ff⟩⟩ :: ls, by
      simp [encoderBlocks, encoderLayerInit, hi, hls]⟩

/-- C2: for every configuration with at least one layer, `build_transformer`
raises an exception and never returns a `Transformer`: either the attention
assertion fails first, or `DecoderLayer.__init__` hits the unbound name
`d_model` (and `Encoder.__init__`/`Decoder.__init__` would fail later anyway
with their argumentless `LayerNormalization()` calls). -/
theorem build_transformer_always_fails :
    ∀ (src_vocab_size tgt_vocab_size d_model h d_ff N : ℕ) (dropout : ℝ)
      (src_seq_len tgt_seq_len : ℕ), 1 ≤ N →
      ∃ e, build_transformer src_vocab_size tgt_vocab_size d_model h d_ff N
            dropout src_seq_len tgt_seq_len = Except.error e := by
  intro sv tv d_model h d_ff N dropout sl tl hN
  obtain ⟨m, rfl⟩ : ∃ m, N = m + 1 := by
    cases N with
    | zero => omega
    | succ m => exact ⟨m, rfl⟩
  cases hi : multiHeadAttentionInit d_model h with
  | error e =>
    exact ⟨e, by simp [build_transformer, encoderBlocks, hi]⟩
  | ok cfg =>
    obtain ⟨ls, hls⟩ := encoderBlocks_ok d_model h d_ff cfg hi (m + 1)
    exact ⟨"NameError: name d_model is not defined", by
      simp [build_transformer, hls, decoderBlocks, hi, decoderLayerInit]⟩

theorem build_transformer_always_fails_witness :
    ∃ e, build_transformer 100 100 8 2 32 1 (1 / 10 : ℝ) 16 16
          = Except.error e :=
  build_transformer_always_fails 100 100 8 2 32 1 (1 / 10) 16 16 (by decide)

/-! ### Positional encoding table -/

/-- `div_term` from `PositionalEncoding.__init__`:
`torch.exp(torch.arange(0, d_model, 2).float() * (-math.log(10000.0)/d_model))`;
entry `i` holds `exp (2*i * (-ln 10000 / d_model))`. -/
def divTerm (d_model i : ℕ) : ℝ :=
  Real.exp (((2 * i : ℕ) : ℝ) * (-(Real.log 10000) / (d_model : ℝ)))

/-- The precomputed table `pe`: `pe = torch.zeros(seq_len, d_model)`, then
`pe[:, 0::2] = sin(position * div_term)` and `pe[:, 1::2] = cos(position *
div_term)`, so entry `(pos, 2*i)` is `sin (pos * div_term i)` and entry
`(pos, 2*i+1)` is `cos (pos * div_term i)`.  The table is registered as a
buffer, not a parameter: it is a pure function of the constructor
hyperparameters and carries no trainable state. -/
def peTable (d_model seq_len pos f : ℕ) : ℝ :=
  if pos < seq_len ∧ f < d_model then
    if f % 2 = 0 then Real.sin ((pos : ℝ) * divTerm d_model (f / 2))
    else Real.cos ((pos : ℝ) * divTerm d_model (f / 2))
  else 0

/-- The argument the table stores, `pos * exp (-2i ln 10000 / d_model)`,
equals the closed form `pos / 10000 ^ (2i / d_model)`. -/
theorem pos_mul_divTerm (d_model pos i : ℕ) :
    (pos : ℝ) * divTerm d_model i
      = (pos : ℝ) / (10000 : ℝ) ^ (((2 * i : ℕ) : ℝ) / (d_model : ℝ)) := by
  have h4 : (0 : ℝ) < 10000 := by norm_num
  rw [Real.rpow_def_of_pos h4, div_eq_mul_inv, ← Real.exp_neg, divTerm]
  congr 1
  ring_nf

/-- C5: for every position in range and every even feature index `2*i`, the
positional table holds `sin (pos / 10000 ^ (2i/d_model))` at `2*i` and
`cos` of the same argument at `2*i + 1`; the table is a fixed function of the
hyperparameters (registered as a non-trainable buffer). -/
theorem positional_table_closed_form :
    ∀ (d_model seq_len pos i : ℕ), pos < seq_len → 2 * i < d_model →
      peTable d_model seq_len pos (2 * i)
          = Real.sin ((pos : ℝ)
              / (10000 : ℝ) ^ (((2 * i : ℕ) : ℝ) / (d_model : ℝ)))
        ∧ (2 * i + 1 < d_model →
            peTable d_model seq_len pos (2 * i + 1)
              = Real.cos ((pos : ℝ)
                  / (10000 : ℝ) ^ (((2 * i : ℕ) : ℝ) / (d_model : ℝ)))) := by
  intro d_model seq_len pos i hpos hlt
  constructor
  · have hmod : (2 * i) % 2 = 0 := by omega
    have hdiv : (2 * i) / 2 = i := by omega
    rw [peTable, if_pos ⟨hpos, hlt⟩, if_pos hmod, hdiv, pos_mul_divTerm]
  · intro hlt1
    have hmod : ¬((2 * i + 1) % 2 = 0) := by omega
    have hdiv : (2 * i + 1) / 2 = i := by omega
    rw [peTable, if_pos ⟨hpos, hlt1⟩, if_neg hmod, hdiv, pos_mul_divTerm]

theorem positional_table_closed_form_witness :
    peTable 2 1 0 (2 * 0)
        = Real.sin (((0 : ℕ) : ℝ)
            / (10000 : ℝ) ^ (((2 * 0 : ℕ) : ℝ) / ((2 : ℕ) : ℝ)))
      ∧ peTable 2 1 0 (2 * 0 + 1)
        = Real.cos (((0 : ℕ) : ℝ)
            / (10000 : ℝ) ^ (((2 * 0 : ℕ) : ℝ) / ((2 : ℕ) : ℝ))) :=
  ⟨(positional_table_closed_form 2 1 0 0 (by decide) (by decide)).1,
    (positional_table_closed_form 2 1 0 0 (by decide) (by decide)).2
      (by decide)⟩

/-! ### Multi-head attention

A projected `(seq, d_model)` tensor with `d_model = h * dk` is split into
heads by `view(batch, seq, h, dk).transpose(1, 2)`: head `hd` of token `t`
holds features `hd*dk ..< (hd+1)*dk`, with the head index before the sequence
index.  The inverse `transpose(1, 2).contiguous().view(batch, seq, d_model)`
reads feature `f` of token `t` from head `f / dk`, coordinate `f % dk`. -/

/-- Feature index of coordinate `j` of head `hd` in the flat `d_model` axis
(the `view` semantics of a contiguous row-major tensor). -/
def finMerge {h dk : ℕ} (hd : Fin h) (j : Fin dk) : Fin (h * dk) :=
  ⟨hd.1 * dk + j.1, by
    have h1 : hd.1 * dk + j.1 < (hd.1 + 1) * dk := by
      rw [Nat.add_mul, Nat.one_mul]
      exact Nat.add_lt_add_left j.2 _
    exact Nat.lt_of_lt_of_le h1 (Nat.mul_le_mul_right dk hd.2)⟩

theorem dk_pos {h dk : ℕ} (f : Fin (h * dk)) : 0 < dk := by
  rcases Nat.eq_zero_or_pos dk with h0 | h0
  · subst h0
    exact absurd f.2 (by simp)
  · exact h0

/-- Head owning flat feature `f` after the merging `view`: `f / dk`. -/
def fHead {h dk : ℕ} (f : Fin (h * dk)) : Fin h :=
  ⟨f.1 / dk, (Nat.div_lt_iff_lt_mul (dk_pos f)).mpr f.2⟩

/-- Coordinate of flat feature `f` inside its head: `f % dk`. -/
def fDim {h dk : ℕ} (f : Fin (h * dk)) : Fin dk :=
  ⟨f.1 % dk, Nat.mod_lt _ (dk_pos f)⟩

theorem fHead_finMerge {h dk : ℕ} (hd : Fin h) (j : Fin dk) :
    fHead (finMerge hd j) = hd := by
  apply Fin.ext
  show (hd.1 * dk + j.1) / dk = hd.1
  rw [Nat.add_comm, Nat.add_mul_div_right _ _ j.pos, Nat.div_eq_of_lt j.2,
    Nat.zero_add]

theorem fDim_finMerge {h dk : ℕ} (hd : Fin h) (j : Fin dk) :
    fDim (finMerge hd j) = j := by
  apply Fin.ext
  show (hd.1 * dk + j.1) % dk = j.1
  rw [Nat.add_comm, Nat.add_mul_mod_self_right]
  exact Nat.mod_eq_of_lt j.2

/-- `masked_fill(mask == 0, -1e9)`: where the mask is zero the raw score is
replaced by the large negative value `-1e9`; with no mask the scores pass
through. -/
def maskFill {sq sk : ℕ} (scores : Fin sq → Fin sk → ℝ) :
    Option (Fin sq → Fin sk → ℝ) → Fin sq → Fin sk → ℝ
  | none => scores
  | some m => fun i j => if m i j = 0 then -(1000000000 : ℝ) else scores i j

/-- The static `MultiHeadAttention.attention(query, key, value, mask, dropout)`
on head-shaped tensors: raw scores `Q·Kᵀ / √dk`, optional mask fill, softmax
over the key axis, elementwise dropout; returns the product with `value`
together with the (dropped) attention weights. -/
def sdpAttention {h sq sk dk : ℕ}
    (query : Fin h → Fin sq → Fin dk → ℝ)
    (key value : Fin h → Fin sk → Fin dk → ℝ)
    (mask : Option (Fin sq → Fin sk → ℝ)) (drop : ℝ → ℝ) :
    (Fin h → Fin sq → Fin dk → ℝ) × (Fin h → Fin sq → Fin sk → ℝ) :=
  let scores := fun hd => maskFill
    (fun i j => (∑ u, query hd i u * key hd j u) / Real.sqrt (dk : ℝ)) mask
  let probs := fun hd i j => drop (softmax (scores hd i) j)
  (fun hd i u => ∑ j, probs hd i j * value hd j u, probs)

/-- `MultiHeadAttention`: four `d_model → d_model` linear projections, the
elementwise dropout map, and the `attention_scores` attribute the forward pass
assigns (absent until the first call).  `d_model = h * dk`. -/
structure MultiHeadAttention (h dk : ℕ) where
  w_q : Linear (h * dk) (h * dk)
  w_k : Linear (h * dk) (h * dk)
  w_v : Linear (h * dk) (h * dk)
  w_o : Linear (h * dk) (h * dk)
  drop : ℝ → ℝ
  attention_scores :
    Option ((sq : ℕ) × (sk : ℕ) × (Fin h → Fin sq → Fin sk → ℝ))

/-- `MultiHeadAttention.forward(q, k, v, mask)`: project, split into heads
(head index before sequence index), run scaled dot-product attention per head,
merge heads back to `d_model` width, apply the output projection.  The output
has the same shape as the input query. -/
def MultiHeadAttention.forward {h dk : ℕ} (M : MultiHeadAttention h dk)
    {sq sk : ℕ} (q : Fin sq → Fin (h * dk) → ℝ)
    (k v : Fin sk → Fin (h * dk) → ℝ)
    (mask : Option (Fin sq → Fin sk → ℝ)) : Fin sq → Fin (h * dk) → ℝ :=
  let query := fun t => M.w_q.apply (q t)
  let key := fun t => M.w_k.apply (k t)
  let value := fun t => M.w_v.apply (v t)
  let x := (sdpAttention
    (fun hd t j => query t (finMerge hd j))
    (fun hd t j => key t (finMerge hd j))
    (fun hd t j => value t (finMerge hd j)) mask M.drop).1
  fun t => M.w_o.apply (fun f => x (fHead f) t (fDim f))

/-- The forward pass also assigns `self.attention_scores`; the stateful view
returns the output together with the updated module. -/
def MultiHeadAttention.forwardSt {h dk : ℕ} (M : MultiHeadAttention h dk)
    {sq sk : ℕ} (q : Fin sq → Fin (h * dk) → ℝ)
    (k v : Fin sk → Fin (h * dk) → ℝ)
    (mask : Option (Fin sq → Fin sk → ℝ)) :
    (Fin sq → Fin (h * dk) → ℝ) × MultiHeadAttention h dk :=
  let probs := (sdpAttention
    (fun hd t j => M.w_q.apply (q t) (finMerge hd j))
    (fun hd t j => M.w_k.apply (k t) (finMerge hd j))
    (fun hd t j => M.w_v.apply (v t) (finMerge hd j)) mask M.drop).2
  (M.forward q k v mask,
    MultiHeadAttention.mk M.w_q M.w_k M.w_v M.w_o M.drop (some ⟨sq, sk, probs⟩))

/-- The attention output of head `hd` as the spec describes it: slice the
projected query, key and value at features `hd*dk ..< (hd+1)*dk`, form raw
scores `Q·Kᵀ / √dk`, replace masked positions by the large negative value,
softmax over the key axis, multiply by `V`. -/
def specHeadOut {h dk : ℕ} (M : MultiHeadAttention h dk) {sq sk : ℕ}
    (q : Fin sq → Fin (h * dk) → ℝ) (k v : Fin sk → Fin (h * dk) → ℝ)
    (mask : Option (Fin sq → Fin sk → ℝ)) :
    Fin h → Fin sq → Fin dk → ℝ :=
  fun hd t j =>
    let Q := fun (i : Fin sq) (u : Fin dk) => M.w_q.apply (q i) (finMerge hd u)
    let K := fun (i : Fin sk) (u : Fin dk) => M.w_k.apply (k i) (finMerge hd u)
    let V := fun (i : Fin sk) (u : Fin dk) => M.w_v.apply (v i) (finMerge hd u)
    let raw := fun (i : Fin sq) (jj : Fin sk) =>
      (∑ u, Q i u * K jj u) / Real.sqrt (dk : ℝ)
    ∑ jj, softmax (maskFill raw mask t) jj * V jj j

/-- C1: with dropout disabled (inference), `MultiHeadAttention.forward` equals
the output projection applied to the concatenation of the per-head attention
outputs described by the spec, and the concatenation restores token-major
order: the coordinate `j` of head `hd` lands at flat feature `hd*dk + j`.
The output has the query's shape by construction (its type). -/
theorem multi_head_attention_matches_spec {h dk sq sk : ℕ}
    (M : MultiHeadAttention h dk) (hdrop : M.drop = fun r => r)
    (q : Fin sq → Fin (h * dk) → ℝ) (k v : Fin sk → Fin (h * dk) → ℝ)
    (mask : Option (Fin sq → Fin sk → ℝ)) :
    M.forward q k v mask
        = (fun t => M.w_o.apply
            (fun f => specHeadOut M q k v mask (fHead f) t (fDim f)))
      ∧ ∀ (hd : Fin h) (t : Fin sq) (j : Fin dk),
          specHeadOut M q k v mask (fHead (finMerge hd j)) t
              (fDim (finMerge hd j))
            = specHeadOut M q k v mask hd t j := by
  constructor
  · funext t
    simp only [MultiHeadAttention.forward, sdpAttention, specHeadOut, hdrop]
  · intro hd t j
    rw [fHead_finMerge, fDim_finMerge]

/-- A concrete two-head module with dropout disabled, used to witness
`multi_head_attention_matches_spec`. -/
def mhaConcrete : MultiHeadAttention 2 1 :=
  ⟨⟨fun _ _ => 1, fun _ => 0⟩, ⟨fun _ _ => 1, fun _ => 0⟩,
    ⟨fun _ _ => 1, fun _ => 0⟩, ⟨fun _ _ => 1, fun _ => 0⟩,
    fun r => r, none⟩

theorem multi_head_attention_matches_spec_witness :
    mhaConcrete.forward (fun (_ : Fin 1) (_ : Fin (2 * 1)) => (1 : ℝ))
        (fun (_ : Fin 1) (_ : Fin (2 * 1)) => (1 : ℝ))
        (fun (_ : Fin 1) (_ : Fin (2 * 1)) => (1 : ℝ)) none
      = fun t => mhaConcrete.w_o.apply
          (fun f => specHeadOut mhaConcrete
            (fun (_ : Fin 1) (_ : Fin (2 * 1)) => (1 : ℝ))
            (fun (_ : Fin 1) (_ : Fin (2 * 1)) => (1 : ℝ))
            (fun (_ : Fin 1) (_ : Fin (2 * 1)) => (1 : ℝ)) none (fHead f) t
            (fDim f)) :=
  (multi_head_attention_matches_spec mhaConcrete rfl
    (fun (_ : Fin 1) (_ : Fin (2 * 1)) => (1 : ℝ))
    (fun (_ : Fin 1) (_ : Fin (2 * 1)) => (1 : ℝ))
    (fun (_ : Fin 1) (_ : Fin (2 * 1)) => (1 : ℝ)) none).1

/-! ### Remaining leaf modules -/

/-- `FeedForward`: `linear2(dropout(relu(linear1(x))))`. -/
structure FeedForward (d_model d_ff : ℕ) where
  linear1 : Linear d_model d_ff
  linear2 : Linear d_ff d_model
  drop : ℝ → ℝ

def FeedForward.forwardRow {d df : ℕ} (F : FeedForward d df)
    (x : Fin d → ℝ) : Fin d → ℝ :=
  F.linear2.apply (fun j => F.drop (max 0 (F.linear1.apply x j)))

def FeedForward.forwardM {n d df : ℕ} (F : FeedForward d df)
    (x : Fin n → Fin d → ℝ) : Fin n → Fin d → ℝ :=
  fun t => F.forwardRow (x t)

/-- `InputEmbeddings.forward`: table lookup scaled by `√d_model`. -/
structure InputEmbeddings (d_model vocab_size : ℕ) where
  embedding : Fin vocab_size → Fin d_model → ℝ

def InputEmbeddings.forward {d vs n : ℕ} (E : InputEmbeddings d vs)
    (ids : Fin n → Fin vs) : Fin n → Fin d → ℝ :=
  fun t i => E.embedding (ids t) i * Real.sqrt (d : ℝ)

/-- `PositionalEncoding`: the `seq_len` fixed at construction and the dropout
map; the table itself is the pure function `peTable`. -/
structure PositionalEncoding (d_model : ℕ) where
  seq_len : ℕ
  drop : ℝ → ℝ

/-- Source line 38 evaluates `x.shape(1)`.  `x.shape` is a `torch.Size`
(a tuple); calling it raises `TypeError` on every input, before any addition
happens. -/
def shapeCall : Except String ℕ :=
  Except.error "TypeError: torch.Size object is not callable"

/-- `PositionalEncoding.forward`: were the sequence-length lookup to succeed,
it would add the first rows of the table (with no gradient flow, the table
being a buffer) and apply dropout — but the lookup itself always raises. -/
def PositionalEncoding.forward {d : ℕ} (P : PositionalEncoding d) {n : ℕ}
    (x : Fin n → Fin d → ℝ) : Except String (Fin n → Fin d → ℝ) :=
  match shapeCall with
  | Except.error e => Except.error e
  | Except.ok _s =>
    Except.ok (fun t i => P.drop (x t i + peTable d P.seq_len t.1 i.1))

/-- C6 (code bug): on every input — also ones whose sequence length is within
the configured maximum — `PositionalEncoding.forward` raises `TypeError`
because it calls `x.shape(1)` instead of reading `x.shape[1]`; it never
returns the sum of `x` and the table. -/
theorem positional_forward_raises_type_error :
    (⟨4, fun r => r⟩ : PositionalEncoding 2).forward
        (fun (_ : Fin 1) (_ : Fin 2) => (0 : ℝ))
      = Except.error "TypeError: torch.Size object is not callable" := rfl

/-- `torch.log_softmax` over the last axis. -/
def logSoftmax {n : ℕ} (v : Fin n → ℝ) : Fin n → ℝ :=
  fun k => Real.log (softmax v k)

structure ProjectionLayer (d_model vocab_size : ℕ) where
  linear : Linear d_model vocab_size

def ProjectionLayer.forward {d vs n : ℕ} (P : ProjectionLayer d vs)
    (x : Fin n → Fin d → ℝ) : Fin n → Fin vs → ℝ :=
  fun t => logSoftmax (P.linear.apply (x t))

/-! ### Encoder and decoder layers and stacks -/

structure EncoderLayer (h dk d_ff : ℕ) where
  multi_head_attention : MultiHeadAttention h dk
  feed_forward : FeedForward (h * dk) d_ff
  residual_connection : ResidualConnection (h * dk)
  residual_connection_ff : ResidualConnection (h * dk)

/-- `EncoderLayer.forward`: a self-attention sublayer and a feed-forward
sublayer, each in its own residual wrap. -/
def EncoderLayer.forward {h dk df n : ℕ} (L : EncoderLayer h dk df)
    (x : Fin n → Fin (h * dk) → ℝ) (mask : Option (Fin n → Fin n → ℝ)) :
    Fin n → Fin (h * dk) → ℝ :=
  let x1 := L.residual_connection.forward x
    (fun y => L.multi_head_attention.forward y y y mask)
  L.residual_connection_ff.forward x1 (fun y => L.feed_forward.forwardM y)

structure Encoder (h dk d_ff : ℕ) where
  layers : List (EncoderLayer h dk d_ff)
  norm : LayerNormalization (h * dk)

/-- `Encoder.forward` iterates `self.encoder_layers`, an attribute that is
never assigned — the constructor stores the list in `self.layers` — so
`nn.Module.__getattr__` raises `AttributeError` on every call.  Modelled as
the error that lookup raises. -/
def Encoder.forward {h dk df n : ℕ} (_E : Encoder h dk df)
    (_x : Fin n → Fin (h * dk) → ℝ) (_mask : Option (Fin n → Fin n → ℝ)) :
    Except String (Fin n → Fin (h * dk) → ℝ) :=
  Except.error "AttributeError: Encoder object has no attribute encoder_layers"

structure DecoderLayer (h dk d_ff : ℕ) where
  self_attention_block : MultiHeadAttention h dk
  cross_attention_block : MultiHeadAttention h dk
  feed_forward_block : FeedForward (h * dk) d_ff
  residual_connections : ResidualConnection (h * dk)

/-- `DecoderLayer.forward`: masked self-attention, cross-attention reading the
encoder output, and feed-forward, each passed through the (single, shared)
residual connection. -/
def DecoderLayer.forward {h dk df n m : ℕ} (L : DecoderLayer h dk df)
    (x : Fin n → Fin (h * dk) → ℝ) (enc_output : Fin m → Fin (h * dk) → ℝ)
    (src_mask : Option (Fin n → Fin m → ℝ))
    (tgt_mask : Option (Fin n → Fin n → ℝ)) : Fin n → Fin (h * dk) → ℝ :=
  let x1 := L.residual_connections.forward x
    (fun y => L.self_attention_block.forward y y y tgt_mask)
  let x2 := L.residual_connections.forward x1
    (fun y => L.cross_attention_block.forward y enc_output enc_output src_mask)
  L.residual_connections.forward x2 (fun y => L.feed_forward_block.forwardM y)

/-- C4: a decoder layer is `residual(residual(residual(x, self_attn(x,x,x,
tgt_mask)), cross_attn(·, enc_output, enc_output, src_mask)), feed_forward)`:
three residual-wrapped sublayers, the cross-attention taking its query from
the decoder state and key and value from the encoder output under the source
mask. -/
theorem decoder_layer_three_residual_sublayers :
    ∀ (h dk df n m : ℕ) (L : DecoderLayer h dk df)
      (x : Fin n → Fin (h * dk) → ℝ) (enc_output : Fin m → Fin (h * dk) → ℝ)
      (src_mask : Option (Fin n → Fin m → ℝ))
      (tgt_mask : Option (Fin n → Fin n → ℝ)),
      L.forward x enc_output src_mask tgt_mask
        = L.residual_connections.forward
            (L.residual_connections.forward
              (L.residual_connections.forward x
                (fun y => L.self_attention_block.forward y y y tgt_mask))
              (fun y => L.cross_attention_block.forward y enc_output
                enc_output src_mask))
            (fun y => L.feed_forward_block.forwardM y) := by
  intro h dk df n m L x enc_output src_mask tgt_mask
  rfl

structure Decoder (h dk d_ff : ℕ) where
  layers : List (DecoderLayer h dk d_ff)
  norm : LayerNormalization (h * dk)

/-- The `for layer in self.layers` loop of `Decoder.forward`. -/
def decoderLoop {h dk df n m : ℕ} (enc_output : Fin m → Fin (h * dk) → ℝ)
    (src_mask : Option (Fin n → Fin m → ℝ))
    (tgt_mask : Option (Fin n → Fin n → ℝ)) :
    List (DecoderLayer h dk df) → (Fin n → Fin (h * dk) → ℝ) →
      (Fin n → Fin (h * dk) → ℝ)
  | [], x => x
  | l :: ls, x =>
    decoderLoop enc_output src_mask tgt_mask ls
      (l.forward x enc_output src_mask tgt_mask)

/-- `Decoder.forward`: the layer loop followed by the final normalization. -/
def Decoder.forward {h dk df n m : ℕ} (D : Decoder h dk df)
    (x : Fin n → Fin (h * dk) → ℝ) (enc_output : Fin m → Fin (h * dk) → ℝ)
    (src_mask : Option (Fin n → Fin m → ℝ))
    (tgt_mask : Option (Fin n → Fin n → ℝ)) : Fin n → Fin (h * dk) → ℝ :=
  D.norm.forwardM (decoderLoop enc_output src_mask tgt_mask D.layers x)

theorem decoderLoop_eq_foldl {h dk df n m : ℕ}
    (enc_output : Fin m → Fin (h * dk) → ℝ)
    (src_mask : Option (Fin n → Fin m → ℝ))
    (tgt_mask : Option (Fin n → Fin n → ℝ)) :
    ∀ (ls : List (DecoderLayer h dk df)) (x : Fin n → Fin (h * dk) → ℝ),
      decoderLoop enc_output src_mask tgt_mask ls x
        = ls.foldl (fun acc l => l.forward acc enc_output src_mask tgt_mask)
            x := by
  intro ls
  induction ls with
  | nil => intro x; rfl
  | cons l ls ih => intro x; simp [decoderLoop, List.foldl, ih]

/-- C3 (code bug in the encoder half): `Decoder.forward` is the left fold of
its stored layers, in order, followed by one final normalization pass — but
`Encoder.forward` raises `AttributeError` on every input instead, because its
loop reads `self.encoder_layers` while the constructor stored the list in
`self.layers`. -/
theorem stack_forward_layers_then_norm :
    (∀ (h dk df n m : ℕ) (D : Decoder h dk df)
      (x : Fin n → Fin (h * dk) → ℝ) (enc_output : Fin m → Fin (h * dk) → ℝ)
      (src_mask : Option (Fin n → Fin m → ℝ))
      (tgt_mask : Option (Fin n → Fin n → ℝ)),
      D.forward x enc_output src_mask tgt_mask
        = D.norm.forwardM (D.layers.foldl
            (fun acc l => l.forward acc enc_output src_mask tgt_mask) x))
    ∧ (∀ (h dk df n : ℕ) (E : Encoder h dk df)
      (x : Fin n → Fin (h * dk) → ℝ) (mask : Option (Fin n → Fin n → ℝ)),
      E.forward x mask = Except.error
        "AttributeError: Encoder object has no attribute encoder_layers") := by
  constructor
  · intro h dk df n m D x enc_output src_mask tgt_mask
    rw [Decoder.forward, decoderLoop_eq_foldl]
  · intro h dk df n E x mask
    rfl

/-! ### Parameter frame: forward passes only read parameters

The only attribute any forward method assigns is
`self.attention_scores` (source line 106), which is not a parameter tensor.
The stateful views below thread the module value through each call so the
claim "parameters are only read" becomes: the parameter projection of the
returned module equals that of the input module. -/

/-- The parameter tensors of a `MultiHeadAttention`: the four projection
weights and biases (the dropout map and the `attention_scores` attribute are
not parameters). -/
def MultiHeadAttention.params {h dk : ℕ} (M : MultiHeadAttention h dk) :
    Linear (h * dk) (h * dk) × Linear (h * dk) (h * dk)
      × Linear (h * dk) (h * dk) × Linear (h * dk) (h * dk) :=
  (M.w_q, M.w_k, M.w_v, M.w_o)

/-- Residual wrap around a stateful sublayer: the sublayer runs once on
`norm(x)` and its updated state is returned unchanged alongside. -/
def ResidualConnection.forwardSt {n d : ℕ} {σ : Type}
    (rc : ResidualConnection d) (x : Fin n → Fin d → ℝ)
    (sublayer : (Fin n → Fin d → ℝ) → (Fin n → Fin d → ℝ) × σ) :
    (Fin n → Fin d → ℝ) × σ :=
  ((fun t i => x t i + rc.drop ((sublayer (rc.norm.forwardM x)).1 t i)),
    (sublayer (rc.norm.forwardM x)).2)

/-- `DecoderLayer.forward` with the `attention_scores` assignments of its two
attention blocks made explicit. -/
def DecoderLayer.forwardSt {h dk df n m : ℕ} (L : DecoderLayer h dk df)
    (x : Fin n → Fin (h * dk) → ℝ) (enc_output : Fin m → Fin (h * dk) → ℝ)
    (src_mask : Option (Fin n → Fin m → ℝ))
    (tgt_mask : Option (Fin n → Fin n → ℝ)) :
    (Fin n → Fin (h * dk) → ℝ) × DecoderLayer h dk df :=
  let p1 := L.residual_connections.forwardSt x
    (fun y => L.self_attention_block.forwardSt y y y tgt_mask)
  let p2 := L.residual_connections.forwardSt p1.1
    (fun y => L.cross_attention_block.forwardSt y enc_output enc_output
      src_mask)
  let x3 := L.residual_connections.forward p2.1
    (fun y => L.feed_forward_block.forwardM y)
  (x3, DecoderLayer.mk p1.2 p2.2 L.feed_forward_block L.residual_connections)

/-- Everything a decoder layer holds apart from the `attention_scores`
attributes of its two attention blocks. -/
def DecoderLayer.params {h dk df : ℕ} (L : DecoderLayer h dk df) :=
  (L.self_attention_block.params, L.cross_attention_block.params,
    L.feed_forward_block, L.residual_connections)

theorem DecoderLayer.forwardSt_params {h dk df n m : ℕ}
    (L : DecoderLayer h dk df) (x : Fin n → Fin (h * dk) → ℝ)
    (enc_output : Fin m → Fin (h * dk) → ℝ)
    (src_mask : Option (Fin n → Fin m → ℝ))
    (tgt_mask : Option (Fin n → Fin n → ℝ)) :
    (L.forwardSt x enc_output src_mask tgt_mask).2.params = L.params := rfl

/-- The decoder layer loop with module states threaded through. -/
def decoderLoopSt {h dk df n m : ℕ} (enc_output : Fin m → Fin (h * dk) → ℝ)
    (src_mask : Option (Fin n → Fin m → ℝ))
    (tgt_mask : Option (Fin n → Fin n → ℝ)) :
    List (DecoderLayer h dk df) → (Fin n → Fin (h * dk) → ℝ) →
      (Fin n → Fin (h * dk) → ℝ) × List (DecoderLayer h dk df)
  | [], x => (x, [])
  | l :: ls, x =>
    let p := l.forwardSt x enc_output src_mask tgt_mask
    let rest := decoderLoopSt enc_output src_mask tgt_mask ls p.1
    (rest.1, p.2 :: rest.2)

theorem decoderLoopSt_params {h dk df n m : ℕ}
    (enc_output : Fin m → Fin (h * dk) → ℝ)
    (src_mask : Option (Fin n → Fin m → ℝ))
    (tgt_mask : Option (Fin n → Fin n → ℝ)) :
    ∀ (ls : List (DecoderLayer h dk df)) (x : Fin n → Fin (h * dk) → ℝ),
      ((decoderLoopSt enc_output src_mask tgt_mask ls x).2).map
          DecoderLayer.params
        = ls.map DecoderLayer.params := by
  intro ls
  induction ls with
  | nil => intro x; rfl
  | cons l ls ih =>
    intro x
    simp [decoderLoopSt, ih, DecoderLayer.forwardSt_params]

def Decoder.forwardSt {h dk df n m : ℕ} (D : Decoder h dk df)
    (x : Fin n → Fin (h * dk) → ℝ) (enc_output : Fin m → Fin (h * dk) → ℝ)
    (src_mask : Option (Fin n → Fin m → ℝ))
    (tgt_mask : Option (Fin n → Fin n → ℝ)) :
    (Fin n → Fin (h * dk) → ℝ) × Decoder h dk df :=
  let p := decoderLoopSt enc_output src_mask tgt_mask D.layers x
  (D.norm.forwardM p.1, Decoder.mk p.2 D.norm)

/-- The assembled `Transformer` module graph. -/
structure Transformer (h dk d_ff src_vocab tgt_vocab : ℕ) where
  encoder : Encoder h dk d_ff
  decoder : Decoder h dk d_ff
  src_embed : InputEmbeddings (h * dk) src_vocab
  tgt_embed : InputEmbeddings (h * dk) tgt_vocab
  src_pos : PositionalEncoding (h * dk)
  tgt_pos : PositionalEncoding (h * dk)
  projection_layer : ProjectionLayer (h * dk) tgt_vocab

/-- `Transformer.encode`: embed, add positions, run the encoder.  The
positional-encoding call raises (`x.shape(1)`), and the encoder call would
raise as well; either way the exception propagates and the module is
untouched. -/
def Transformer.encodeSt {h dk df sv tv : ℕ} (T : Transformer h dk df sv tv)
    {n : ℕ} (src : Fin n → Fin sv) (src_mask : Option (Fin n → Fin n → ℝ)) :
    Except String (Fin n → Fin (h * dk) → ℝ) × Transformer h dk df sv tv :=
  match T.src_pos.forward (T.src_embed.forward src) with
  | Except.error e => (Except.error e, T)
  | Except.ok s =>
    match T.encoder.forward s src_mask with
    | Except.error e => (Except.error e, T)
    | Except.ok y => (Except.ok y, T)

/-- `Transformer.decode`: embed, add positions, run the decoder (which would
update the `attention_scores` of every layer). -/
def Transformer.decodeSt {h dk df sv tv : ℕ} (T : Transformer h dk df sv tv)
    {n m : ℕ} (encoder_output : Fin m → Fin (h * dk) → ℝ)
    (src_mask : Option (Fin n → Fin m → ℝ)) (tgt : Fin n → Fin tv)
    (tgt_mask : Option (Fin n → Fin n → ℝ)) :
    Except String (Fin n → Fin (h * dk) → ℝ) × Transformer h dk df sv tv :=
  match T.tgt_pos.forward (T.tgt_embed.forward tgt) with
  | Except.error e => (Except.error e, T)
  | Except.ok s =>
    let p := T.decoder.forwardSt s encoder_output src_mask tgt_mask
    (Except.ok p.1,
      Transformer.mk T.encoder p.2 T.src_embed T.tgt_embed T.src_pos
        T.tgt_pos T.projection_layer)

/-- `Transformer.project`: a pure call into the projection layer. -/
def Transformer.projectSt {h dk df sv tv : ℕ} (T : Transformer h dk df sv tv)
    {n : ℕ} (x : Fin n → Fin (h * dk) → ℝ) :
    (Fin n → Fin tv → ℝ) × Transformer h dk df sv tv :=
  (T.projection_layer.forward x, T)

/-- C10: forward computation never mutates parameters.  A multi-head
attention forward pass changes only `attention_scores`, leaving the four
projection layers untouched; a decoder layer and the decoder stack preserve
the parameters of every stored module; and `encode`, `decode` and `project`
return the transformer with every parameter tensor as it was. -/
theorem forward_passes_preserve_parameters :
    (∀ (h dk sq sk : ℕ) (M : MultiHeadAttention h dk)
      (q : Fin sq → Fin (h * dk) → ℝ) (k v : Fin sk → Fin (h * dk) → ℝ)
      (mask : Option (Fin sq → Fin sk → ℝ)),
      (M.forwardSt q k v mask).2.params = M.params)
    ∧ (∀ (h dk df n m : ℕ) (L : DecoderLayer h dk df)
      (x : Fin n → Fin (h * dk) → ℝ) (enc_output : Fin m → Fin (h * dk) → ℝ)
      (src_mask : Option (Fin n → Fin m → ℝ))
      (tgt_mask : Option (Fin n → Fin n → ℝ)),
      (L.forwardSt x enc_output src_mask tgt_mask).2.params = L.params)
    ∧ (∀ (h dk df n m : ℕ) (D : Decoder h dk df)
      (x : Fin n → Fin (h * dk) → ℝ) (enc_output : Fin m → Fin (h * dk) → ℝ)
      (src_mask : Option (Fin n → Fin m → ℝ))
      (tgt_mask : Option (Fin n → Fin n → ℝ)),
      ((D.forwardSt x enc_output src_mask tgt_mask).2.layers.map
          DecoderLayer.params = D.layers.map DecoderLayer.params)
        ∧ (D.forwardSt x enc_output src_mask tgt_mask).2.norm = D.norm)
    ∧ (∀ (h dk df sv tv n : ℕ) (T : Transformer h dk df sv tv)
      (src : Fin n → Fin sv) (src_mask : Option (Fin n → Fin n → ℝ)),
      (T.encodeSt src src_mask).2 = T)
    ∧ (∀ (h dk df sv tv n m : ℕ) (T : Transformer h dk df sv tv)
      (encoder_output : Fin m → Fin (h * dk) → ℝ)
      (src_mask : Option (Fin n → Fin m → ℝ)) (tgt : Fin n → Fin tv)
      (tgt_mask : Option (Fin n → Fin n → ℝ)),
      (T.decodeSt encoder_output src_mask tgt tgt_mask).2 = T)
    ∧ (∀ (h dk df sv tv n : ℕ) (T : Transformer h dk df sv tv)
      (x : Fin n → Fin (h * dk) → ℝ),
      (T.projectSt x).2 = T) := by
  refine ⟨?_, ?_, ?_, ?_, ?_, ?_⟩
  · intro h dk sq sk M q k v mask
    rfl
  · intro h dk df n m L x enc_output src_mask tgt_mask
    rfl
  · intro h dk df n m D x enc_output src_mask tgt_mask
    exact ⟨decoderLoopSt_params enc_output src_mask tgt_mask D.layers x, rfl⟩
  · intro h dk df sv tv n T src src_mask
    rfl
  · intro h dk df sv tv n m T encoder_output src_mask tgt tgt_mask
    rfl
  · intro h dk df sv tv n T x
    rfl

end

end Model
